import Mathlib

/-!
Verification development for the aiovantage object synchronization runtime.

The source files under verification:
- aiovantage/_object_interfaces/button.py  (ButtonInterface)
- aiovantage/__init__.py                   (Vantage client)
- aiovantage/_controllers/buttons.py       (ButtonsController)
- aiovantage/_config_client/file_loader.py (iter_objects)

The Interface base class, the Controller base class and Converter.tokenize
are not part of the provided sources; where they decide a property they are
modelled from the specification, and each such definition says so in its
doc comment.
-/

namespace Aiovantage

/-- Modelled from the spec: Interface.update_properties (the base Interface
class is not in the provided sources).  The single chokepoint through which
every cache write flows: for each entry of the mapping, the new value is
compared against the current cached value using semantic equality; only
genuinely changed entries are written, and the names of those entries are
returned in mapping iteration order.  The cache is a total map from property
names to values; a Python dict iterates its items in insertion order, so the
mapping is a list of key-value pairs with (in practice) no duplicate keys. -/
def update_properties {α : Type} [DecidableEq α] (cache : String → α) :
    List (String × α) → ((String → α) × List String)
  | [] => (cache, [])
  | (k, v) :: rest =>
    if cache k = v then
      update_properties cache rest
    else
      let r := update_properties (fun x => if x = k then v else cache x) rest
      (r.1, k :: r.2)

/-- Keys that do not occur in the mapping are left untouched. -/
theorem update_properties_not_mem_key {α : Type} [DecidableEq α]
    (cache : String → α) (m : List (String × α)) (k : String)
    (hk : k ∉ m.map Prod.fst) :
    (update_properties cache m).1 k = cache k := by
  induction m generalizing cache with
  | nil => rfl
  | cons p rest ih =>
    obtain ⟨k', v⟩ := p
    simp only [List.map_cons, List.mem_cons] at hk
    push_neg at hk
    simp only [update_properties]
    split
    · exact ih cache hk.2
    · simp only []
      rw [ih _ hk.2]
      simp [hk.1]

/-- Keys not reported as changed are left untouched (no spurious writes). -/
theorem update_properties_not_mem_changed {α : Type} [DecidableEq α]
    (cache : String → α) (m : List (String × α)) (k : String)
    (hk : k ∉ (update_properties cache m).2) :
    (update_properties cache m).1 k = cache k := by
  induction m generalizing cache with
  | nil => rfl
  | cons p rest ih =>
    obtain ⟨k', v⟩ := p
    simp only [update_properties] at hk ⊢
    by_cases h : cache k' = v
    · rw [if_pos h] at hk ⊢
      exact ih cache hk
    · rw [if_neg h] at hk ⊢
      simp only [List.mem_cons] at hk
      push_neg at hk
      show (update_properties (fun x => if x = k' then v else cache x) rest).1 k
        = cache k
      rw [ih _ hk.2]
      simp [hk.1]

/-- With no duplicate keys, the changed-name list is exactly the keys whose
new value differs from the prior cached value, in mapping order. -/
theorem update_properties_changed {α : Type} [DecidableEq α]
    (cache : String → α) (m : List (String × α))
    (hnd : (m.map Prod.fst).Nodup) :
    (update_properties cache m).2 =
      (m.filter (fun p => cache p.1 ≠ p.2)).map Prod.fst := by
  induction m generalizing cache with
  | nil => rfl
  | cons p rest ih =>
    obtain ⟨k, v⟩ := p
    simp only [List.map_cons, List.nodup_cons] at hnd
    simp only [update_properties]
    by_cases heq : cache k = v
    · rw [if_pos heq, ih cache hnd.2]
      have hstep : List.filter (fun p => decide (cache p.1 ≠ p.2)) ((k, v) :: rest)
          = List.filter (fun p => decide (cache p.1 ≠ p.2)) rest := by
        rw [List.filter_cons]
        simp [heq]
      rw [hstep]
    · rw [if_neg heq]
      have hstep : List.filter (fun p => decide (cache p.1 ≠ p.2)) ((k, v) :: rest)
          = (k, v) :: List.filter (fun p => decide (cache p.1 ≠ p.2)) rest := by
        rw [List.filter_cons]
        simp [heq]
      rw [hstep, List.map_cons]
      show k :: (update_properties (fun x => if x = k then v else cache x) rest).2
        = _
      rw [ih _ hnd.2]
      have hcong :
          List.filter (fun p => decide ((if p.1 = k then v else cache p.1) ≠ p.2))
              rest
            = List.filter (fun p => decide (cache p.1 ≠ p.2)) rest := by
        refine List.filter_congr ?_
        intro q hq
        have hqk : q.1 ≠ k := by
          intro h
          exact hnd.1 (h ▸ List.mem_map_of_mem Prod.fst hq)
        simp [hqk]
      rw [hcong]

/-- With no duplicate keys, every mapped key holds its new value afterwards. -/
theorem update_properties_writes {α : Type} [DecidableEq α]
    (cache : String → α) (m : List (String × α))
    (hnd : (m.map Prod.fst).Nodup) :
    ∀ p ∈ m, (update_properties cache m).1 p.1 = p.2 := by
  induction m generalizing cache with
  | nil => intro p hp; cases hp
  | cons q rest ih =>
    obtain ⟨k, v⟩ := q
    simp only [List.map_cons, List.nodup_cons] at hnd
    intro p hp
    simp only [List.mem_cons] at hp
    simp only [update_properties]
    split
    · rename_i heq
      rcases hp with rfl | hp
      · rw [update_properties_not_mem_key cache rest k hnd.1]
        exact heq
      · exact ih cache hnd.2 p hp
    · simp only []
      rcases hp with rfl | hp
      · rw [update_properties_not_mem_key _ rest k hnd.1]
        simp
      · exact ih _ hnd.2 p hp

/-- When every mapped key already holds its new value, nothing changes. -/
theorem update_properties_fixed {α : Type} [DecidableEq α]
    (cache : String → α) (m : List (String × α))
    (hfix : ∀ p ∈ m, cache p.1 = p.2) :
    update_properties cache m = (cache, []) := by
  induction m with
  | nil => rfl
  | cons q rest ih =>
    obtain ⟨k, v⟩ := q
    simp only [update_properties]
    rw [if_pos (hfix (k, v) (List.mem_cons_self _ _))]
    exact ih fun p hp => hfix p (List.mem_cons_of_mem _ hp)

/-- C1: every update_properties call returns exactly the keys whose new
value differs (by semantic equality) from the prior cached value, writes
only those entries, and repeating the same mapping immediately afterwards
changes nothing and returns the empty list. -/
theorem update_properties_spec {α : Type} [DecidableEq α]
    (cache : String → α) (m : List (String × α))
    (hnd : (m.map Prod.fst).Nodup) :
    (update_properties cache m).2 =
        (m.filter (fun p => cache p.1 ≠ p.2)).map Prod.fst ∧
      (∀ k, k ∉ (update_properties cache m).2 →
        (update_properties cache m).1 k = cache k) ∧
      update_properties (update_properties cache m).1 m =
        ((update_properties cache m).1, []) := by
  refine ⟨update_properties_changed cache m hnd,
    fun k hk => update_properties_not_mem_changed cache m k hk, ?_⟩
  exact update_properties_fixed _ m (update_properties_writes cache m hnd)

/-- Witness for update_properties_spec at a concrete cache and mapping. -/
theorem update_properties_spec_witness :
    ((([("a", (1 : Nat)), ("b", 2)]).map Prod.fst).Nodup) ∧
      ((update_properties (fun x => if x = "a" then (1 : Nat) else 0)
          [("a", 1), ("b", 2)]).2 =
        (([("a", (1 : Nat)), ("b", 2)]).filter
          (fun p => (fun x => if x = "a" then (1 : Nat) else 0) p.1 ≠ p.2)).map
            Prod.fst ∧
      (∀ k, k ∉ (update_properties (fun x => if x = "a" then (1 : Nat) else 0)
          [("a", 1), ("b", 2)]).2 →
        (update_properties (fun x => if x = "a" then (1 : Nat) else 0)
          [("a", 1), ("b", 2)]).1 k =
          (fun x => if x = "a" then (1 : Nat) else 0) k) ∧
      update_properties (update_properties
          (fun x => if x = "a" then (1 : Nat) else 0) [("a", 1), ("b", 2)]).1
          [("a", 1), ("b", 2)] =
        ((update_properties (fun x => if x = "a" then (1 : Nat) else 0)
          [("a", 1), ("b", 2)]).1, [])) :=
  ⟨by decide, update_properties_spec _ _ (by decide)⟩

namespace ButtonInterface

/-- Button state (button.py, class State: Up = 0, Down = 1). -/
inductive State
  | Up
  | Down
deriving DecidableEq

/-- LED blink rate (button.py, class BlinkRate, a StrEnum). -/
inductive BlinkRate
  | Fast
  | Medium
  | Slow
  | VerySlow
  | Off
deriving DecidableEq

/-- String value of each BlinkRate member (button.py StrEnum values). -/
def BlinkRate.value : BlinkRate → String
  | .Fast => "FAST"
  | .Medium => "MEDIUM"
  | .Slow => "SLOW"
  | .VerySlow => "VERYSLOW"
  | .Off => "OFF"

/-- Constructing a BlinkRate from a string, as the StrEnum call
ButtonInterface.BlinkRate(blink_str) does; an unknown string raises
ValueError, modelled as none. -/
def BlinkRate.ofValue : String → Option BlinkRate
  | "FAST" => some .Fast
  | "MEDIUM" => some .Medium
  | "SLOW" => some .Slow
  | "VERYSLOW" => some .VerySlow
  | "OFF" => some .Off
  | _ => none

end ButtonInterface

/-- Semantic value of one cached Button property.  Python attributes hold
None (unknown), a State member, an RGB tuple of ints, or a BlinkRate member;
equality of these values is Python structural equality. -/
inductive PropValue
  | unknown
  | st (s : ButtonInterface.State)
  | rgb (r g b : Int)
  | blink (b : ButtonInterface.BlinkRate)
deriving DecidableEq

/-- Initial Button property cache, from the class attribute defaults in
button.py: state = State.Up, led_active_color = None,
led_inactive_color = None, led_blink_rate = None. -/
def initButtonCache : String → PropValue := fun p =>
  if p = "state" then PropValue.st ButtonInterface.State.Up else PropValue.unknown

/-- Splitting a character list at spaces, accumulating the current token in
reverse. -/
def tokenizeAux : List Char → List Char → List String
  | [], acc => if acc = [] then [] else [String.mk acc.reverse]
  | c :: cs, acc =>
    if c = ' ' then
      if acc = [] then tokenizeAux cs []
      else String.mk acc.reverse :: tokenizeAux cs []
    else tokenizeAux cs (c :: acc)

/-- Modelled from the spec: Converter.tokenize (the Converter class is not in
the provided sources).  Tokenization is whitespace-separated tokens. -/
def tokenize (line : String) : List String :=
  tokenizeAux line.toList []

/-- Value of a decimal digit character. -/
def digitVal (c : Char) : Option Nat :=
  if c.isDigit then some (c.toNat - ('0').toNat) else none

/-- Accumulating decimal digits into a natural number; any non-digit fails. -/
def digitsToNatAux : List Char → Nat → Option Nat
  | [], acc => some acc
  | c :: cs, acc =>
    match digitVal c with
    | some d => digitsToNatAux cs (acc * 10 + d)
    | none => none

/-- Decoding of one int token, as the Python int() calls in button.py:
an optional leading minus sign followed by decimal digits; anything else
raises ValueError, modelled as none. -/
def parseIntTok (s : String) : Option Int :=
  match s.toList with
  | [] => none
  | '-' :: [] => none
  | '-' :: ds => (digitsToNatAux ds 0).map (fun n => -(n : Int))
  | ds => (digitsToNatAux ds 0).map (fun n => (n : Int))

/-- Decoding of the three color tokens of a GETLED reply or LED status into
an RGB tuple value, as the int() calls in button.py. -/
def parseRGB (r g b : String) : Option PropValue :=
  match parseIntTok r, parseIntTok g, parseIntTok b with
  | some ri, some gi, some bi => some (PropValue.rgb ri gi bi)
  | _, _, _ => none

/-- ButtonInterface.handle_category_status (button.py).  A BTN status sets
state from PRESS/RELEASE via update_properties; an LED status decodes
eight argument tokens and updates the three LED properties via
update_properties; any other category falls through to the base class,
which by the spec is a no-op for unrecognized categories.  Error results
model the uncaught Python exceptions on malformed arguments (KeyError on an
unknown BTN argument, ValueError on bad LED tokens). -/
def handle_category_status (cache : String → PropValue) (category : String)
    (args : List String) : Except Unit ((String → PropValue) × List String) :=
  if category = "BTN" then
    match args.head? with
    | some "PRESS" =>
      .ok (update_properties cache
        [("state", PropValue.st ButtonInterface.State.Down)])
    | some "RELEASE" =>
      .ok (update_properties cache
        [("state", PropValue.st ButtonInterface.State.Up)])
    | _ => .error ()
  else if category = "LED" then
    match args with
    | _s :: r1 :: g1 :: b1 :: r2 :: g2 :: b2 :: blinkStr :: _ =>
      match parseRGB r1 g1 b1, parseRGB r2 g2 b2,
          ButtonInterface.BlinkRate.ofValue blinkStr with
      | some a, some i, some br =>
        .ok (update_properties cache
          [("led_active_color", a), ("led_inactive_color", i),
           ("led_blink_rate", PropValue.blink br)])
      | _, _, _ => .error ()
    | _ => .error ()
  else
    .ok (cache, [])

/-- ButtonInterface.fetch_state (button.py).  The call to the base class
fetch_state is modelled from the spec: it invokes every declared
cached-property getter (for Button, only get_state binds a property,
namely state), aggregating changed-name lists, and a failure fetching one
property is caught and logged.  getStateRes is the outcome of the GetState
invoke; hasCommandClient models the command_client None check; ledRes is
the outcome of the GETLED raw request (error = CommandError), carrying the
last response line on success.  A GETLED line that does not unpack into ten
tokens, a non-integer color token, or an unknown blink-rate string raises
ValueError, which the source catches and logs, keeping the changes
aggregated so far. -/
def led_update (cache : String → PropValue) (line : String) :
    (String → PropValue) × List String :=
  match tokenize line with
  | [_, _vid, _st, r1, g1, b1, r2, g2, b2, blinkStr] =>
    match parseRGB r1 g1 b1, parseRGB r2 g2 b2,
        ButtonInterface.BlinkRate.ofValue blinkStr with
    | some a, some i, some br =>
      update_properties cache
        [("led_active_color", a), ("led_inactive_color", i),
         ("led_blink_rate", PropValue.blink br)]
    | _, _, _ => (cache, [])
  | _ => (cache, [])

def fetch_state (cache : String → PropValue)
    (getStateRes : Except Unit ButtonInterface.State)
    (hasCommandClient : Bool)
    (ledRes : Except Unit String) : (String → PropValue) × List String :=
  let superRes :=
    match getStateRes with
    | .ok s => update_properties cache [("state", PropValue.st s)]
    | .error _ => (cache, [])
  if hasCommandClient = false then superRes
  else
    match ledRes with
    | .error _ => superRes
    | .ok line =>
      let led := led_update superRes.1 line
      (led.1, superRes.2 ++ led.2)

/-- String sent for a State argument on the wire. -/
def stateArg : ButtonInterface.State → String
  | .Up => "Up"
  | .Down => "Down"

/-- ButtonInterface.set_state (button.py): sends INVOKE with the
Button.SetStateSW verb when sw is true, else Button.SetState.  The cache
write is modelled from the spec: a successful setter updates the local
cache to the written value (the method descriptor machinery of the
Interface base class is not in the provided sources).  Returns the updated
cache and the request lines sent so far. -/
def set_state (cache : String → PropValue) (requests : List String)
    (vid : Nat) (s : ButtonInterface.State) (sw : Bool) :
    (String → PropValue) × List String :=
  let verb := if sw then "Button.SetStateSW" else "Button.SetState"
  let line := "INVOKE " ++ toString vid ++ " " ++ verb ++ " " ++ stateArg s
  ((update_properties cache [("state", PropValue.st s)]).1, requests ++ [line])

/-- ButtonInterface.get_state (button.py): sends INVOKE with the
Button.GetStateHW verb when hw is true, else Button.GetState; the reply
argument is the decoded remote result.  The cache write is modelled from
the spec: the generated accessor updates the cache with the decoded result
before returning.  Returns the decoded value, the updated cache and the
request lines sent so far. -/
def get_state (cache : String → PropValue) (requests : List String)
    (vid : Nat) (hw : Bool) (reply : ButtonInterface.State) :
    ButtonInterface.State × (String → PropValue) × List String :=
  let verb := if hw then "Button.GetStateHW" else "Button.GetState"
  let line := "INVOKE " ++ toString vid ++ " " ++ verb
  (reply, (update_properties cache [("state", PropValue.st reply)]).1,
    requests ++ [line])

/-- ButtonInterface.set_led (button.py): raises ValueError when the object
has no command client; otherwise sends the firmware 3.9.x LED terminal
command and, on success, updates the three LED properties through
update_properties.  requestOk models the raw_request outcome; a
CommandError propagates uncaught and leaves the cache untouched. -/
def set_led (cache : String → PropValue) (requests : List String) (vid : Nat)
    (hasCommandClient : Bool) (requestOk : Bool)
    (active inactive : Int × Int × Int) (blink : ButtonInterface.BlinkRate) :
    Except Unit ((String → PropValue) × List String × List String) :=
  if hasCommandClient = false then .error ()
  else
    let line := "LED " ++ toString vid ++ " " ++ toString active.1 ++ " "
      ++ toString active.2.1 ++ " " ++ toString active.2.2 ++ " "
      ++ toString inactive.1 ++ " " ++ toString inactive.2.1 ++ " "
      ++ toString inactive.2.2 ++ " " ++ blink.value
    if requestOk = false then .error ()
    else
      let u := update_properties cache
        [("led_active_color", PropValue.rgb active.1 active.2.1 active.2.2),
         ("led_inactive_color",
           PropValue.rgb inactive.1 inactive.2.1 inactive.2.2),
         ("led_blink_rate", PropValue.blink blink)]
      .ok (u.1, requests ++ [line], u.2)

/-- Final cache values come either from the prior cache or from the mapping. -/
theorem update_properties_value_cases {α : Type} [DecidableEq α]
    (cache : String → α) (m : List (String × α)) (p : String) :
    (update_properties cache m).1 p = cache p ∨
      ∃ q ∈ m, (update_properties cache m).1 p = q.2 := by
  induction m generalizing cache with
  | nil => left; rfl
  | cons q rest ih =>
    obtain ⟨k, v⟩ := q
    simp only [update_properties]
    by_cases h : cache k = v
    · rw [if_pos h]
      rcases ih cache with h1 | ⟨q, hq, h1⟩
      · left; exact h1
      · right; exact ⟨q, List.mem_cons_of_mem _ hq, h1⟩
    · rw [if_neg h]
      rcases ih (fun x => if x = k then v else cache x) with h1 | ⟨q, hq, h1⟩
      · by_cases hpk : p = k
        · right
          refine ⟨(k, v), List.mem_cons_self _ _, ?_⟩
          show (update_properties _ rest).1 p = v
          rw [h1]
          simp [hpk]
        · left
          show (update_properties _ rest).1 p = cache p
          rw [h1]
          simp [hpk]
      · right; exact ⟨q, List.mem_cons_of_mem _ hq, h1⟩

/-- When no mapped value equals the bad value, update_properties never
writes it over a cache slot that did not hold it. -/
theorem update_properties_preserve {α : Type} [DecidableEq α]
    (cache : String → α) (m : List (String × α)) (p : String) (bad : α)
    (hm : ∀ q ∈ m, q.2 ≠ bad) (hc : cache p ≠ bad) :
    (update_properties cache m).1 p ≠ bad := by
  rcases update_properties_value_cases cache m p with h | ⟨q, hq, h⟩
  · rw [h]; exact hc
  · rw [h]; exact hm q hq

/-- Values produced by parseRGB are RGB tuples, never the unknown marker. -/
theorem parseRGB_ne_unknown (r g b : String) (v : PropValue)
    (h : parseRGB r g b = some v) : v ≠ PropValue.unknown := by
  unfold parseRGB at h
  split at h
  · cases Option.some.inj h
    simp
  · exact absurd h (by simp)

/-- Extracting the cache component from a successful Except result. -/
theorem ok_fst {β : Type} (u : (String → PropValue) × β)
    (c2 : String → PropValue) (y : β)
    (h : (Except.ok u : Except Unit ((String → PropValue) × β)) =
      Except.ok (c2, y)) : c2 = u.1 := by
  have h2 := Except.ok.inj h
  subst h2
  rfl

/-- A successful LED-line decode only writes RGB tuples and a blink rate. -/
theorem led_update_preserve (c : String → PropValue) (line : String)
    (p : String) (hc : c p ≠ PropValue.unknown) :
    (led_update c line).1 p ≠ PropValue.unknown := by
  unfold led_update
  split
  · split
    · apply update_properties_preserve _ _ _ _ _ hc
      intro q hq
      simp only [List.mem_cons, List.not_mem_nil, or_false] at hq
      rcases hq with rfl | rfl | rfl
      · exact parseRGB_ne_unknown _ _ _ _ (by assumption)
      · exact parseRGB_ne_unknown _ _ _ _ (by assumption)
      · simp
    all_goals exact hc
  all_goals exact hc

/-- BTN and LED category handlers only write State values, RGB tuples and
blink rates into the cache. -/
theorem handle_category_status_preserve (c : String → PropValue)
    (cat : String) (args : List String) (c2 : String → PropValue)
    (changed : List String) (p : String)
    (hok : handle_category_status c cat args = Except.ok (c2, changed))
    (hc : c p ≠ PropValue.unknown) : c2 p ≠ PropValue.unknown := by
  unfold handle_category_status at hok
  split at hok
  · split at hok
    all_goals try exact Except.noConfusion hok
    all_goals
      rw [ok_fst _ _ _ hok]
      apply update_properties_preserve _ _ _ _ _ hc
      intro q hq
      simp only [List.mem_singleton] at hq
      subst hq
      simp
  · split at hok
    · split at hok
      all_goals try exact Except.noConfusion hok
      split at hok
      all_goals try exact Except.noConfusion hok
      rw [ok_fst _ _ _ hok]
      apply update_properties_preserve _ _ _ _ _ hc
      intro q hq
      simp only [List.mem_cons, List.not_mem_nil, or_false] at hq
      rcases hq with rfl | rfl | rfl
      · exact parseRGB_ne_unknown _ _ _ _ (by assumption)
      · exact parseRGB_ne_unknown _ _ _ _ (by assumption)
      · simp
    · rw [ok_fst _ _ _ hok]
      exact hc

/-- fetch_state only writes State values, RGB tuples and blink rates. -/
theorem fetch_state_preserve (c : String → PropValue)
    (gs : Except Unit ButtonInterface.State) (hcc : Bool)
    (lr : Except Unit String) (p : String)
    (hc : c p ≠ PropValue.unknown) :
    (fetch_state c gs hcc lr).1 p ≠ PropValue.unknown := by
  have h1 : (match gs with
      | .ok s => update_properties c [("state", PropValue.st s)]
      | .error _ => (c, [])).1 p ≠ PropValue.unknown := by
    cases gs with
    | ok s =>
      apply update_properties_preserve _ _ _ _ _ hc
      intro q hq
      simp only [List.mem_singleton] at hq
      subst hq
      simp
    | error e => exact hc
  unfold fetch_state
  cases hcc with
  | false => simpa using h1
  | true =>
    cases lr with
    | error e => simpa using h1
    | ok line =>
      simp only [Bool.true_eq_false, if_false]
      exact led_update_preserve _ _ _ h1

/-- Operations of the Button interface that can touch the property cache,
with every remote outcome a parameter.  applyOp returns the cache after
the operation; a raised exception leaves the cache unchanged. -/
inductive ButtonOp
  | handleStatus (cat : String) (args : List String)
  | fetchState (gs : Except Unit ButtonInterface.State) (hcc : Bool)
      (lr : Except Unit String)
  | setLed (vid : Nat) (hcc rok : Bool) (a i : Int × Int × Int)
      (bl : ButtonInterface.BlinkRate)
  | setState (vid : Nat) (s : ButtonInterface.State) (sw : Bool)
  | getState (vid : Nat) (hw : Bool) (reply : ButtonInterface.State)

/-- Cache after running one Button operation. -/
def applyOp (c : String → PropValue) : ButtonOp → (String → PropValue)
  | .handleStatus cat args =>
    match handle_category_status c cat args with
    | .ok (c2, _) => c2
    | .error _ => c
  | .fetchState gs hcc lr => (fetch_state c gs hcc lr).1
  | .setLed vid hcc rok a i bl =>
    match set_led c [] vid hcc rok a i bl with
    | .ok (c2, _, _) => c2
    | .error _ => c
  | .setState vid s sw => (set_state c [] vid s sw).1
  | .getState vid hw reply => (get_state c [] vid hw reply).2.1

/-- Single Button operations never write the unknown marker. -/
theorem applyOp_preserve (c : String → PropValue) (op : ButtonOp)
    (p : String) (hc : c p ≠ PropValue.unknown) :
    applyOp c op p ≠ PropValue.unknown := by
  cases op with
  | handleStatus cat args =>
    cases hok : handle_category_status c cat args with
    | ok u =>
      obtain ⟨c2, changed⟩ := u
      have h1 : applyOp c (ButtonOp.handleStatus cat args) = c2 := by
        simp [applyOp, hok]
      rw [h1]
      exact handle_category_status_preserve c cat args c2 changed p hok hc
    | error e =>
      have h1 : applyOp c (ButtonOp.handleStatus cat args) = c := by
        simp [applyOp, hok]
      rw [h1]
      exact hc
  | fetchState gs hcc lr => exact fetch_state_preserve c gs hcc lr p hc
  | setLed vid hcc rok a i bl =>
    cases hcc with
    | false => exact hc
    | true =>
      cases rok with
      | false => exact hc
      | true =>
        show (update_properties c
            [("led_active_color", PropValue.rgb a.1 a.2.1 a.2.2),
             ("led_inactive_color", PropValue.rgb i.1 i.2.1 i.2.2),
             ("led_blink_rate", PropValue.blink bl)]).1 p ≠ PropValue.unknown
        apply update_properties_preserve _ _ _ _ _ hc
        intro q hq
        simp only [List.mem_cons, List.not_mem_nil, or_false] at hq
        rcases hq with rfl | rfl | rfl <;> simp
  | setState vid s sw =>
    show (update_properties c [("state", PropValue.st s)]).1 p ≠
      PropValue.unknown
    apply update_properties_preserve _ _ _ _ _ hc
    intro q hq
    simp only [List.mem_singleton] at hq
    subst hq
    simp
  | getState vid hw reply =>
    show (update_properties c [("state", PropValue.st reply)]).1 p ≠
      PropValue.unknown
    apply update_properties_preserve _ _ _ _ _ hc
    intro q hq
    simp only [List.mem_singleton] at hq
    subst hq
    simp

/-- C5 counterexample: a freshly initialized Button cache holds State.Up in
the state property, not the unknown marker, before any fetch or push. -/
theorem initButtonCache_state_not_unknown :
    initButtonCache "state" = PropValue.st ButtonInterface.State.Up ∧
      initButtonCache "state" ≠ PropValue.unknown := by
  constructor
  · rfl
  · simp [initButtonCache]

/-- C5 amended: the LED properties of a Button start at the unknown marker,
the state property starts at its declared default State.Up, and across every
sequence of Button operations a property holding a known value never reverts
to the unknown marker. -/
theorem button_cache_unknown_spec (c : String → PropValue)
    (ops : List ButtonOp) (p : String) (hc : c p ≠ PropValue.unknown) :
    initButtonCache "led_active_color" = PropValue.unknown ∧
    initButtonCache "led_inactive_color" = PropValue.unknown ∧
    initButtonCache "led_blink_rate" = PropValue.unknown ∧
    initButtonCache "state" = PropValue.st ButtonInterface.State.Up ∧
    (ops.foldl applyOp c) p ≠ PropValue.unknown := by
  refine ⟨rfl, rfl, rfl, rfl, ?_⟩
  induction ops generalizing c with
  | nil => exact hc
  | cons op rest ih =>
    exact ih (applyOp c op) (applyOp_preserve c op p hc)

/-- Witness for button_cache_unknown_spec: the initial cache, a PRESS push
followed by a repeated PRESS, observed at the state property. -/
theorem button_cache_unknown_spec_witness :
    (initButtonCache "state" ≠ PropValue.unknown) ∧
      (initButtonCache "led_active_color" = PropValue.unknown ∧
      initButtonCache "led_inactive_color" = PropValue.unknown ∧
      initButtonCache "led_blink_rate" = PropValue.unknown ∧
      initButtonCache "state" = PropValue.st ButtonInterface.State.Up ∧
      (([ButtonOp.handleStatus "BTN" ["PRESS"],
         ButtonOp.handleStatus "BTN" ["PRESS"]].foldl applyOp initButtonCache)
        "state" ≠ PropValue.unknown)) :=
  ⟨by simp [initButtonCache], button_cache_unknown_spec initButtonCache
    [ButtonOp.handleStatus "BTN" ["PRESS"],
     ButtonOp.handleStatus "BTN" ["PRESS"]] "state"
    (by simp [initButtonCache])⟩

/-- C2: a first fetch of a Button in its initial cache state that receives
the raw GETLED response line updates led_active_color to (255, 0, 0),
led_inactive_color to (0, 0, 0) and led_blink_rate to Off, and returns
exactly those three property names as changed, provided the GetState getter
does not report Down (the state property keeps its initial Up value). -/
theorem fetch_state_first_getled (gs : Except Unit ButtonInterface.State)
    (hgs : gs ≠ Except.ok ButtonInterface.State.Down) :
    (fetch_state initButtonCache gs true
        (Except.ok "R:GETLED 447 1 255 0 0 0 0 0 OFF")).2 =
      ["led_active_color", "led_inactive_color", "led_blink_rate"] ∧
    (fetch_state initButtonCache gs true
        (Except.ok "R:GETLED 447 1 255 0 0 0 0 0 OFF")).1 "led_active_color" =
      PropValue.rgb 255 0 0 ∧
    (fetch_state initButtonCache gs true
        (Except.ok "R:GETLED 447 1 255 0 0 0 0 0 OFF")).1
        "led_inactive_color" = PropValue.rgb 0 0 0 ∧
    (fetch_state initButtonCache gs true
        (Except.ok "R:GETLED 447 1 255 0 0 0 0 0 OFF")).1 "led_blink_rate" =
      PropValue.blink ButtonInterface.BlinkRate.Off := by
  cases gs with
  | error e => cases e; decide
  | ok s =>
    cases s with
    | Up => decide
    | Down => exact absurd rfl hgs

/-- Witness for fetch_state_first_getled with the GetState getter
reporting Up. -/
theorem fetch_state_first_getled_witness :
    ((Except.ok ButtonInterface.State.Up : Except Unit ButtonInterface.State)
        ≠ Except.ok ButtonInterface.State.Down) ∧
      ((fetch_state initButtonCache (Except.ok ButtonInterface.State.Up) true
          (Except.ok "R:GETLED 447 1 255 0 0 0 0 0 OFF")).2 =
        ["led_active_color", "led_inactive_color", "led_blink_rate"] ∧
      (fetch_state initButtonCache (Except.ok ButtonInterface.State.Up) true
          (Except.ok "R:GETLED 447 1 255 0 0 0 0 0 OFF")).1
          "led_active_color" = PropValue.rgb 255 0 0 ∧
      (fetch_state initButtonCache (Except.ok ButtonInterface.State.Up) true
          (Except.ok "R:GETLED 447 1 255 0 0 0 0 0 OFF")).1
          "led_inactive_color" = PropValue.rgb 0 0 0 ∧
      (fetch_state initButtonCache (Except.ok ButtonInterface.State.Up) true
          (Except.ok "R:GETLED 447 1 255 0 0 0 0 0 OFF")).1 "led_blink_rate" =
        PropValue.blink ButtonInterface.BlinkRate.Off) :=
  ⟨by simp, fetch_state_first_getled (Except.ok ButtonInterface.State.Up)
    (by simp)⟩

/-- C3: a pushed BTN PRESS status on a Button whose cached state is not
already Down sets the cached state to Down and reports exactly the state
property as changed; a second consecutive PRESS reports no changes. -/
theorem handle_btn_press (c : String → PropValue)
    (h : c "state" ≠ PropValue.st ButtonInterface.State.Down) :
    ∃ c2, handle_category_status c "BTN" ["PRESS"] =
        Except.ok (c2, ["state"]) ∧
      c2 "state" = PropValue.st ButtonInterface.State.Down ∧
      handle_category_status c2 "BTN" ["PRESS"] = Except.ok (c2, []) := by
  refine ⟨fun x => if x = "state"
      then PropValue.st ButtonInterface.State.Down else c x, ?_, ?_, ?_⟩
  · simp [handle_category_status, update_properties, h]
  · simp
  · simp [handle_category_status, update_properties]

/-- Witness for handle_btn_press at the initial Button cache. -/
theorem handle_btn_press_witness :
    (initButtonCache "state" ≠ PropValue.st ButtonInterface.State.Down) ∧
      (∃ c2, handle_category_status initButtonCache "BTN" ["PRESS"] =
          Except.ok (c2, ["state"]) ∧
        c2 "state" = PropValue.st ButtonInterface.State.Down ∧
        handle_category_status c2 "BTN" ["PRESS"] = Except.ok (c2, [])) :=
  ⟨by simp [initButtonCache], handle_btn_press initButtonCache
    (by simp [initButtonCache])⟩

/-- C4 counterexample: set_state(Down) followed by get_state with hw false
sends a Button.GetState INVOKE request on the wire, so the get does perform
a network round trip beyond the set itself. -/
theorem get_state_sends_request :
    (get_state
        (set_state initButtonCache [] 447 ButtonInterface.State.Down false).1
        (set_state initButtonCache [] 447 ButtonInterface.State.Down false).2
        447 false ButtonInterface.State.Down).2.2 =
      ["INVOKE 447 Button.SetState Down", "INVOKE 447 Button.GetState"] := by
  decide

/-- C4 amended: a successful set_state(Down) updates the local cache to Down
immediately; the following get_state with hw false sends one further
Button.GetState request and returns the decoded remote reply, which is Down
when the remote echoes the just-written value, updating the cache to it. -/
theorem set_then_get_state (c : String → PropValue) (requests : List String)
    (vid : Nat) (reply : ButtonInterface.State)
    (hreply : reply = ButtonInterface.State.Down) :
    (set_state c requests vid ButtonInterface.State.Down false).1 "state" =
      PropValue.st ButtonInterface.State.Down ∧
    (get_state
        (set_state c requests vid ButtonInterface.State.Down false).1
        (set_state c requests vid ButtonInterface.State.Down false).2
        vid false reply).1 = ButtonInterface.State.Down ∧
    (get_state
        (set_state c requests vid ButtonInterface.State.Down false).1
        (set_state c requests vid ButtonInterface.State.Down false).2
        vid false reply).2.1 "state" =
      PropValue.st ButtonInterface.State.Down ∧
    (get_state
        (set_state c requests vid ButtonInterface.State.Down false).1
        (set_state c requests vid ButtonInterface.State.Down false).2
        vid false reply).2.2 =
      (set_state c requests vid ButtonInterface.State.Down false).2 ++
        ["INVOKE " ++ toString vid ++ " " ++ "Button.GetState"] := by
  subst hreply
  refine ⟨?_, rfl, ?_, rfl⟩
  · exact update_properties_writes c _ (by simp) _ (List.mem_singleton_self _)
  · exact update_properties_writes _ _ (by simp) _ (List.mem_singleton_self _)

/-- Witness for set_then_get_state at the initial cache, vid 447. -/
theorem set_then_get_state_witness :
    (ButtonInterface.State.Down = ButtonInterface.State.Down) ∧
      ((set_state initButtonCache [] 447 ButtonInterface.State.Down false).1
          "state" = PropValue.st ButtonInterface.State.Down ∧
      (get_state
          (set_state initButtonCache [] 447 ButtonInterface.State.Down
            false).1
          (set_state initButtonCache [] 447 ButtonInterface.State.Down
            false).2
          447 false ButtonInterface.State.Down).1 =
        ButtonInterface.State.Down ∧
      (get_state
          (set_state initButtonCache [] 447 ButtonInterface.State.Down
            false).1
          (set_state initButtonCache [] 447 ButtonInterface.State.Down
            false).2
          447 false ButtonInterface.State.Down).2.1 "state" =
        PropValue.st ButtonInterface.State.Down ∧
      (get_state
          (set_state initButtonCache [] 447 ButtonInterface.State.Down
            false).1
          (set_state initButtonCache [] 447 ButtonInterface.State.Down
            false).2
          447 false ButtonInterface.State.Down).2.2 =
        (set_state initButtonCache [] 447 ButtonInterface.State.Down
          false).2 ++
          ["INVOKE " ++ toString 447 ++ " " ++ "Button.GetState"]) :=
  ⟨rfl, set_then_get_state initButtonCache [] 447
    ButtonInterface.State.Down rfl⟩

/-- C9: a CommandError on the GETLED raw request is caught and fetch_state
still returns the changes aggregated from the state getter (the LED cache
keeping its previous values), and a failure of the GetState getter is caught
and does not abort the LED fetch. -/
theorem fetch_state_partial_failure (c : String → PropValue)
    (gs : Except Unit ButtonInterface.State) (line : String) :
    (∀ s, gs = Except.ok s →
      fetch_state c gs true (Except.error ()) =
        update_properties c [("state", PropValue.st s)]) ∧
    fetch_state c (Except.error ()) true (Except.error ()) = (c, []) ∧
    fetch_state c (Except.error ()) true (Except.ok line) =
      led_update c line := by
  refine ⟨?_, rfl, ?_⟩
  · rintro s rfl
    rfl
  · show ((led_update c line).1, [] ++ (led_update c line).2) =
      led_update c line
    simp

/-- Witness for fetch_state_partial_failure at the initial cache with a
GetState result of Down. -/
theorem fetch_state_partial_failure_witness :
    ((Except.ok ButtonInterface.State.Down
        : Except Unit ButtonInterface.State) =
      Except.ok ButtonInterface.State.Down) ∧
      (fetch_state initButtonCache (Except.ok ButtonInterface.State.Down)
          true (Except.error ()) =
        update_properties initButtonCache
          [("state", PropValue.st ButtonInterface.State.Down)]) :=
  ⟨rfl, (fetch_state_partial_failure initButtonCache
      (Except.ok ButtonInterface.State.Down) "").1
    ButtonInterface.State.Down rfl⟩

/-- Modelled from the spec: the per-controller monitoring status type, an
enum with OBJECT and ENHANCED_LOG members, chosen once during
enable_state_monitoring. -/
inductive StatusType
  | object
  | enhanced_log
deriving DecidableEq

/-- Monitoring-related state of one controller: whether monitoring is
active, the status type chosen on the first enable call, and the stored
subscriptions, identified here by their category. -/
structure MonState where
  monitoring : Bool
  statusType : Option StatusType
  statusUnsubs : List String
deriving DecidableEq

namespace Controller

/-- Modelled from the spec: enable_state_monitoring of the base Controller
class (not in the provided sources).  The status type is chosen once, the
declared categories are subscribed, and a re-entrant call is a no-op so
that no duplicate subscriptions are created at the base level. -/
def enable_state_monitoring (c : MonState) (chosen : StatusType)
    (cats : List String) : MonState :=
  if c.monitoring then c
  else
    { monitoring := true, statusType := some chosen,
      statusUnsubs := c.statusUnsubs ++ cats }

end Controller

namespace ButtonsController

/-- ButtonsController.enable_state_monitoring (buttons.py): calls the base
class, then, when the chosen status type is OBJECT, unconditionally appends
an extra LED category subscription to the stored unsubscribe list. -/
def enable_state_monitoring (c : MonState) (chosen : StatusType)
    (cats : List String) : MonState :=
  let c1 := Controller.enable_state_monitoring c chosen cats
  if c1.statusType = some StatusType.object then
    { c1 with statusUnsubs := c1.statusUnsubs ++ ["LED"] }
  else c1

end ButtonsController

/-- C8: the Buttons controller violates the idempotence claim: with status
type OBJECT, a second enable_state_monitoring call without an intervening
disable appends a second LED subscription, so the stored subscriptions
differ from a single call, while the base-level call alone is idempotent. -/
theorem buttons_enable_monitoring_not_idempotent :
    (ButtonsController.enable_state_monitoring
        (ButtonsController.enable_state_monitoring
          ⟨false, none, []⟩ StatusType.object ["BTN"])
        StatusType.object ["BTN"]).statusUnsubs = ["BTN", "LED", "LED"] ∧
    (ButtonsController.enable_state_monitoring
        ⟨false, none, []⟩ StatusType.object ["BTN"]).statusUnsubs =
      ["BTN", "LED"] ∧
    (∀ (c : MonState) (chosen : StatusType) (cats : List String),
      Controller.enable_state_monitoring
          (Controller.enable_state_monitoring c chosen cats) chosen cats =
        Controller.enable_state_monitoring c chosen cats) := by
  refine ⟨by decide, by decide, ?_⟩
  intro c chosen cats
  unfold Controller.enable_state_monitoring
  by_cases h : c.monitoring
  · simp [h]
  · simp [h]

/-- Per-controller object registry state for initialization: whether the
controller has been populated and the owned objects, by id. -/
structure CtrlState where
  initialized : Bool
  objects : List Nat
deriving DecidableEq

namespace Controller

/-- Modelled from the spec and the _inject_from_file docstring in
__init__.py: Controller.inject (not in the provided sources) pre-populates
one object and marks the controller as already populated, so a later
initialize call skips live discovery. -/
def inject (c : CtrlState) (vid : Nat) : CtrlState :=
  { initialized := true, objects := c.objects ++ [vid] }

/-- Modelled from the spec: Controller.initialize (not in the provided
sources).  When the controller is already populated, live discovery is
skipped entirely; otherwise the discovery collaborator is queried and its
objects stored.  The Bool result records whether live discovery was
performed. -/
def run_init (c : CtrlState) (discovered : List Nat) : CtrlState × Bool :=
  if c.initialized then (c, false)
  else ({ initialized := true, objects := c.objects ++ discovered }, true)

end Controller

/-- Injecting a nonempty sequence of objects marks a controller populated. -/
theorem foldl_inject_initialized (c : CtrlState) (vids : List Nat)
    (h : c.initialized = true ∨ vids ≠ []) :
    (vids.foldl Controller.inject c).initialized = true := by
  induction vids generalizing c with
  | nil =>
    rcases h with h | h
    · exact h
    · exact absurd rfl h
  | cons v rest ih =>
    exact ih (Controller.inject c v) (Or.inl rfl)

/-- C6: injecting at least one object before initialize makes initialize
skip live discovery entirely, while a never-populated controller still
performs live discovery and stores the discovered objects. -/
theorem inject_skips_discovery (c : CtrlState) (vids : List Nat)
    (d : List Nat) (hvids : vids ≠ []) :
    (Controller.run_init (vids.foldl Controller.inject c) d).2 = false ∧
    (∀ c2 : CtrlState, c2.initialized = false →
      (Controller.run_init c2 d).2 = true ∧
      (Controller.run_init c2 d).1.objects = c2.objects ++ d) := by
  constructor
  · have h1 := foldl_inject_initialized c vids (Or.inr hvids)
    simp [Controller.run_init, h1]
  · intro c2 h2
    simp [Controller.run_init, h2]

/-- Witness for inject_skips_discovery: one injected object, id 3. -/
theorem inject_skips_discovery_witness :
    (([3] : List Nat) ≠ []) ∧
      ((Controller.run_init
          (([3] : List Nat).foldl Controller.inject ⟨false, []⟩) [5]).2 =
        false ∧
      (∀ c2 : CtrlState, c2.initialized = false →
        (Controller.run_init c2 [5]).2 = true ∧
        (Controller.run_init c2 [5]).1.objects = c2.objects ++ [5])) :=
  ⟨by simp, inject_skips_discovery ⟨false, []⟩ [3] [5] (by simp)⟩

/-- One candidate record from the Objects section of a snapshot file: the
XML tag of the first typed child of an Object element, and the xsdata parse
outcome for the matching class, carried as data (a raised exception is
error). -/
structure XmlRecord (α : Type) where
  tag : String
  parse : Except Unit α

/-- One Object element of the snapshot file: its child elements. -/
structure ObjectElem (α : Type) where
  children : List (XmlRecord α)

/-- What one Object element contributes: its first typed child when the
child exists, its tag is a known type and the parse succeeds; nothing
otherwise. -/
def recordYield {α : Type} (typeMap : List String) (e : ObjectElem α) :
    Option α :=
  match e.children with
  | [] => none
  | r :: _ =>
    if r.tag ∈ typeMap then
      match r.parse with
      | .ok o => some o
      | .error _ => none
    else none

/-- iter_objects (file_loader.py): iterates the Object elements, skipping
elements with no children, elements whose tag is not in the type map
(unrecognized infrastructure types) and elements whose parse raises, and
yields every successfully parsed object. -/
def iter_objects {α : Type} (typeMap : List String) :
    List (ObjectElem α) → List α
  | [] => []
  | e :: rest =>
    match e.children with
    | [] => iter_objects typeMap rest
    | r :: _ =>
      if r.tag ∈ typeMap then
        match r.parse with
        | .ok o => o :: iter_objects typeMap rest
        | .error _ => iter_objects typeMap rest
      else iter_objects typeMap rest

/-- iter_objects yields exactly the per-record contributions, in order. -/
theorem iter_objects_eq_filterMap {α : Type} (tm : List String)
    (elems : List (ObjectElem α)) :
    iter_objects tm elems = elems.filterMap (recordYield tm) := by
  induction elems with
  | nil => rfl
  | cons e rest ih =>
    cases hch : e.children with
    | nil => simp [iter_objects, List.filterMap_cons, recordYield, hch, ih]
    | cons r tail =>
      by_cases ht : r.tag ∈ tm
      · cases hp : r.parse with
        | ok o =>
          simp [iter_objects, List.filterMap_cons, recordYield, hch, ht, hp,
            ih]
        | error u =>
          simp [iter_objects, List.filterMap_cons, recordYield, hch, ht, hp,
            ih]
      · simp [iter_objects, List.filterMap_cons, recordYield, hch, ht, ih]

/-- C7: iter_objects is a total function equal to a filterMap of independent
per-record contributions, so a record with no typed child, an unrecognized
tag or a failing parse is silently skipped: removing any such bad record
from the file leaves the yielded objects unchanged, and no single bad
record can make the whole iteration fail. -/
theorem iter_objects_skips_bad_records {α : Type} (tm : List String)
    (elems : List (ObjectElem α)) :
    iter_objects tm elems = elems.filterMap (recordYield tm) ∧
    (∀ (pre suf : List (ObjectElem α)) (bad : ObjectElem α),
      recordYield tm bad = none →
      iter_objects tm (pre ++ bad :: suf) = iter_objects tm (pre ++ suf)) := by
  refine ⟨iter_objects_eq_filterMap tm elems, ?_⟩
  intro pre suf bad hbad
  rw [iter_objects_eq_filterMap, iter_objects_eq_filterMap,
    List.filterMap_append, List.filterMap_append, List.filterMap_cons, hbad]

/-- Witness for iter_objects_skips_bad_records: a good record, an
unrecognized-tag record and a record whose parse fails. -/
theorem iter_objects_skips_bad_records_witness :
    (recordYield ["Load"]
        (⟨[⟨"WireLink", Except.ok (1 : Nat)⟩]⟩ : ObjectElem Nat) = none) ∧
      (iter_objects ["Load"]
          ([⟨[⟨"Load", Except.ok (7 : Nat)⟩]⟩] ++
            (⟨[⟨"WireLink", Except.ok 1⟩]⟩ : ObjectElem Nat) ::
              [⟨[⟨"Load", Except.error ()⟩]⟩]) =
        iter_objects ["Load"]
          ([⟨[⟨"Load", Except.ok (7 : Nat)⟩]⟩] ++
            [⟨[⟨"Load", Except.error ()⟩]⟩])) :=
  ⟨by decide,
    (iter_objects_skips_bad_records ["Load"] []).2
      [⟨[⟨"Load", Except.ok 7⟩]⟩] [⟨[⟨"Load", Except.error ()⟩]⟩]
      ⟨[⟨"WireLink", Except.ok 1⟩]⟩ (by decide)⟩

namespace Controller

/-- Modelled from the spec: the registry membership test of the base
Controller class (not in the provided sources): an id is a member when the
registry holds an entry for it. -/
def contains {α : Type} (c : List (Nat × α)) (vid : Nat) : Bool :=
  c.any (fun p => p.1 = vid)

/-- Modelled from the spec: indexed lookup by id in the registry of the
base Controller class (not in the provided sources). -/
def getitem {α : Type} (c : List (Nat × α)) (vid : Nat) : Option α :=
  (c.find? (fun p => p.1 = vid)).map Prod.snd

end Controller

/-- Membership in one registry holds exactly when lookup finds an entry. -/
theorem controller_contains_iff_getitem {α : Type} (c : List (Nat × α))
    (vid : Nat) :
    Controller.contains c vid = true ↔
      (Controller.getitem c vid).isSome = true := by
  simp [Controller.contains, Controller.getitem, List.any_eq_true,
    List.find?_isSome]

namespace Vantage

/-- Vantage.__getitem__ (__init__.py): scans the controllers and returns
the object of the first controller whose registry contains the id; the
KeyError raised when no controller contains it is modelled as none. -/
def getitem {α : Type} : List (List (Nat × α)) → Nat → Option α
  | [], _ => none
  | c :: rest, vid =>
    if Controller.contains c vid then Controller.getitem c vid
    else getitem rest vid

/-- Vantage.__contains__ (__init__.py): whether any controller contains
the id. -/
def hasVid {α : Type} (ctls : List (List (Nat × α))) (vid : Nat) : Bool :=
  ctls.any (fun c => Controller.contains c vid)

/-- Vantage.get (__init__.py): indexed lookup with the KeyError converted
to None. -/
def get {α : Type} (ctls : List (List (Nat × α))) (vid : Nat) : Option α :=
  match getitem ctls vid with
  | some o => some o
  | none => none

end Vantage

/-- C10: the three Vantage lookups agree: the membership test succeeds
exactly when indexed lookup finds an object, get always equals indexed
lookup, and when membership fails the indexed lookup raises KeyError (none)
and get returns none without raising. -/
theorem vantage_lookup_agree {α : Type} (ctls : List (List (Nat × α)))
    (vid : Nat) :
    (Vantage.hasVid ctls vid = true ↔
      (Vantage.getitem ctls vid).isSome = true) ∧
    Vantage.get ctls vid = Vantage.getitem ctls vid ∧
    (Vantage.hasVid ctls vid = false → Vantage.getitem ctls vid = none ∧
      Vantage.get ctls vid = none) := by
  have hmain : ∀ (l : List (List (Nat × α))),
      Vantage.hasVid l vid = true ↔ (Vantage.getitem l vid).isSome = true := by
    intro l
    induction l with
    | nil => simp [Vantage.hasVid, Vantage.getitem]
    | cons c rest ih =>
      cases hc : Controller.contains c vid with
      | true =>
        have h1 : Vantage.hasVid (c :: rest) vid = true := by
          simp [Vantage.hasVid, List.any_cons, hc]
        have h2 : Vantage.getitem (c :: rest) vid =
            Controller.getitem c vid := by
          simp [Vantage.getitem, hc]
        rw [h1, h2]
        simp only [true_iff]
        exact (controller_contains_iff_getitem c vid).mp hc
      | false =>
        have h1 : Vantage.hasVid (c :: rest) vid = Vantage.hasVid rest vid := by
          simp [Vantage.hasVid, List.any_cons, hc]
        have h2 : Vantage.getitem (c :: rest) vid =
            Vantage.getitem rest vid := by
          simp [Vantage.getitem, hc]
        rw [h1, h2]
        exact ih
  have hget : Vantage.get ctls vid = Vantage.getitem ctls vid := by
    unfold Vantage.get
    cases h : Vantage.getitem ctls vid <;> simp
  refine ⟨hmain ctls, hget, ?_⟩
  intro h
  have hnone : Vantage.getitem ctls vid = none := by
    cases hg : Vantage.getitem ctls vid with
    | none => rfl
    | some o =>
      have h1 : (Vantage.getitem ctls vid).isSome = true := by simp [hg]
      have h2 := (hmain ctls).mpr h1
      rw [h] at h2
      exact Bool.noConfusion h2
  exact ⟨hnone, by rw [hget, hnone]⟩

/-- Witness for vantage_lookup_agree: two controllers, ids present and
absent. -/
theorem vantage_lookup_agree_witness :
    ((Vantage.hasVid [[(447, (0 : Nat))], []] 447 = true ↔
      (Vantage.getitem [[(447, (0 : Nat))], []] 447).isSome = true) ∧
    Vantage.get [[(447, (0 : Nat))], []] 447 =
      Vantage.getitem [[(447, (0 : Nat))], []] 447 ∧
    (Vantage.hasVid [[(447, (0 : Nat))], []] 447 = false →
      Vantage.getitem [[(447, (0 : Nat))], []] 447 = none ∧
      Vantage.get [[(447, (0 : Nat))], []] 447 = none)) :=
  vantage_lookup_agree [[(447, (0 : Nat))], []] 447

end Aiovantage
